import Mathlib

/-!
Shallow embedding of the phoenix (koala) mRPC engine and daemon
configuration, covering `src/koala/src/mrpc/engine.rs` (the `MrpcEngine`:
`resume`, `check_customer`, `process_dp`, `check_input_queue`, `check_cmd`,
`process_cmd`, `check_new_incoming_connection`) and
`src/koala/src/config.rs` (`Config::from_path`).

State that the Rust code mutates in place (`self.backoff`,
`self.dp_spin_cnt`, `self.transport_type`, `self.last_cmd_ts`, the address
map) is threaded explicitly through an `EngineState` record.  The
environment of one `resume` call (the customer rings, the in-process
queues, the internal `mpsc` channel and the clock) is an `Env` record.
Machine integers are modelled as `Nat` (with an explicit `% 2 ^ 64` where
the code uses wrapping pointer arithmetic).
-/

namespace Phoenix

/-- `DP_LIMIT` from `MrpcEngine::resume`. -/
def DP_LIMIT : Nat := 2 ^ 17

/-- `CMD_MAX_INTERVAL_MS` from `MrpcEngine::resume`. -/
def CMD_MAX_INTERVAL_MS : Nat := 1000

/-- `BUF_LEN` from `MrpcEngine::check_customer`. -/
def BUF_LEN : Nat := 32

/-- Modelled from the spec: `control_plane::TransportType` (not among the
source files) is a plain enum of available transports. -/
inductive TransportType
  | Rdma
  | Tcp
deriving DecidableEq

/-- `interface::rpc::RpcMsgType`. -/
inductive RpcMsgType
  | Request
  | Response
deriving DecidableEq

/-- `interface::rpc::MessageMeta`; the integer fields are machine integers
in the source, modelled as `Nat`. -/
structure MessageMeta where
  conn_id : Nat
  func_id : Nat
  call_id : Nat
  len : Nat
  msg_type : RpcMsgType
deriving DecidableEq

/-- `interface::rpc::MessageTemplateErased`: a message meta plus the
type-erased shared-memory pointer (a `u64`). -/
structure MessageTemplateErased where
  meta : MessageMeta
  shmptr : Nat
deriving DecidableEq

/-- A type-erased `dyn RpcMessage` riding on an in-process edge, as
consumed by `check_input_queue`.  The embedding keeps the values of the
accessors the engine reads (`conn_id`, `func_id`, `call_id`, `len`,
`is_request`) together with the pointer value `addr` (the daemon virtual
address of the message, a `u64`).  `switch_address_space` and `marshal`
rewrite pointers stored inside the pointee; they change neither the
pointer value nor these accessor values. -/
structure RpcMessageModel where
  conn_id : Nat
  func_id : Nat
  call_id : Nat
  len : Nat
  is_request : Bool
  addr : Nat
deriving DecidableEq

/-- The private `Status` enum of `mrpc::engine`. -/
inductive Status
  | Progress (n : Nat)
  | Disconnected
deriving DecidableEq

/-- `dp::Completion`, the fixed-size record written to a CQ slot. -/
structure DpCompletion where
  erased : MessageTemplateErased
deriving DecidableEq

/-- Truncation to a `u64`, as performed by `wrapping_offset` followed by
the `as u64` cast in `check_input_queue`. -/
def wrap64 (z : Int) : Nat := (z % (2 ^ 64 : Int)).toNat

/-- Result of polling `rx_inputs()[0].try_recv()`. -/
inductive RxPoll
  | recvMsg (m : RpcMessageModel)
  | empty
  | disconnected
deriving DecidableEq

/-- The retry loop around `customer.enqueue_wc_with` in
`check_input_queue` (`while !sent { ... }`).  Each element of `slots`
says whether the completion queue had a free slot at the corresponding
attempt.  Modelled from the spec for the shared-memory ring (whose code is
not among the source files): when a slot is free the closure runs once,
writes one `dp::Completion` and returns 1; with a full ring the closure is
not invoked and nothing is produced.  `none` means the loop was still
retrying when the modelled attempt trace ran out; ring-operation failures
of `enqueue_wc_with` are not modelled (the call is modelled as `Ok`). -/
def enqueue_wc_loop (c : DpCompletion) (cq : List DpCompletion) :
    List Bool → Option (List DpCompletion)
  | [] => none
  | free :: rest => if free then some (cq ++ [c]) else enqueue_wc_loop c cq rest

/-- `MrpcEngine::check_input_queue`.  `off` stands for
`marshal::query_shm_offset` (defined outside the source files), giving the
signed offset added to the message address.  Returns the status together
with the completions appended to the CQ during this call, or `none` when
the enqueue retry loop exhausted the modelled attempts. -/
def check_input_queue (off : Nat → Int) (rx : RxPoll) (cq : List DpCompletion)
    (slots : List Bool) : Option (Status × List DpCompletion) :=
  match rx with
  | RxPoll.recvMsg m =>
      let meta : MessageMeta :=
        { conn_id := m.conn_id
          func_id := m.func_id
          call_id := m.call_id
          len := m.len
          msg_type := if m.is_request then RpcMsgType.Request else RpcMsgType.Response }
      let remote_msg_addr : Nat := wrap64 ((m.addr : Int) + off m.addr)
      let erased : MessageTemplateErased := { meta := meta, shmptr := remote_msg_addr }
      match enqueue_wc_loop { erased := erased } cq slots with
      | some cq2 => some (Status.Progress 0, cq2)
      | none => none
  | RxPoll.empty => some (Status.Progress 0, cq)
  | RxPoll.disconnected => some (Status.Disconnected, cq)

/-- `dp::WorkRequest`, a fixed-size WQ slot record. -/
inductive WorkRequest
  | Call (erased : MessageTemplateErased)
  | Reply (erased : MessageTemplateErased)
deriving DecidableEq

/-- A type-erased message published on `tx_outputs()[0]` by `process_dp`:
the reconstructed `MessageTemplate<HelloRequest>` (from a `Call`) or
`MessageTemplate<HelloReply>` (from a `Reply`).  `marshal()` rewrites
pointers inside the payload and is invisible at this level. -/
inductive TxMsg
  | helloRequest (erased : MessageTemplateErased)
  | helloReply (erased : MessageTemplateErased)
deriving DecidableEq

/-- Outcome of one `process_dp` call. -/
inductive DpStep
  | ok (sent : TxMsg)
  | sendErr
  | panicked
deriving DecidableEq

/-- `MrpcEngine::process_dp`.  `txConnected` models whether
`tx_outputs()[0].send` succeeds (a `SendError` becomes
`DatapathError::InternalQueueSend` through the `?`); `unimplemented!()`
on a `func_id` other than 0 is the `panicked` outcome. -/
def process_dp (txConnected : Bool) (req : WorkRequest) : DpStep :=
  match req with
  | WorkRequest.Call erased =>
      match erased.meta.func_id with
      | 0 => if txConnected then DpStep.ok (TxMsg.helloRequest erased) else DpStep.sendErr
      | _ + 1 => DpStep.panicked
  | WorkRequest.Reply erased =>
      match erased.meta.func_id with
      | 0 => if txConnected then DpStep.ok (TxMsg.helloReply erased) else DpStep.sendErr
      | _ + 1 => DpStep.panicked

/-- Outcome of one `check_customer` call: the returned status, the number
of work requests consumed from the WQ ring, the remaining WQ contents and
the messages sent on `tx_outputs()[0]`.  `dpError` is an early `Err`
return through `?`; `panicked` aborts the step. -/
inductive CustomerOutcome
  | ok (st : Status) (consumed : Nat) (wq : List WorkRequest) (sent : List TxMsg)
  | dpError (consumed : Nat) (wq : List WorkRequest) (sent : List TxMsg)
  | panicked (consumed : Nat) (wq : List WorkRequest) (sent : List TxMsg)
deriving DecidableEq

/-- The `for wr in &buffer { self.process_dp(wr)?; }` loop of
`check_customer`, followed by its `Ok(Progress(0))` return. -/
def process_batch (txConnected : Bool) (consumed : Nat) (wq : List WorkRequest) :
    List WorkRequest → List TxMsg → CustomerOutcome
  | [], acc => CustomerOutcome.ok (Status.Progress 0) consumed wq acc
  | wr :: rest, acc =>
      match process_dp txConnected wr with
      | DpStep.ok m => process_batch txConnected consumed wq rest (acc ++ [m])
      | DpStep.sendErr => CustomerOutcome.dpError consumed wq acc
      | DpStep.panicked => CustomerOutcome.panicked consumed wq acc

/-- `MrpcEngine::check_customer`.  The WQ ring is modelled as the list of
pending work requests, so the `read_count` passed to the dequeue closure
is `wq.length`; `avail` is the value returned by `get_avail_wc_slots()`
(the ring operations themselves are modelled as not failing).  The closure
copies `count = min (min BUF_LEN avail) read_count` records into `buffer`
and returns `count`, advancing the ring; the dequeued records are then fed
to `process_dp`, and the function returns `Progress 0` regardless of
`count`. -/
def check_customer (txConnected : Bool) (wq : List WorkRequest) (avail : Nat) :
    CustomerOutcome :=
  let max_count := Nat.min BUF_LEN avail
  if max_count = 0 then
    CustomerOutcome.ok (Status.Progress 0) 0 wq []
  else
    let count := Nat.min max_count wq.length
    process_batch txConnected count (wq.drop count) (wq.take count) []

/-- The variants of `ipc::mrpc::cmd::CompletionKind` used by the engine.
Handles, memfds and returned memory-region descriptors are opaque to the
engine and modelled as `Nat` / lists of `Nat`. -/
inductive CmdCompletionKind
  | SetTransport
  | AllocShm (mr : Nat)
  | AllocShmInternal (mr : Nat) (memfd : Nat)
  | Connect (handle : Nat) (recv_mrs : List Nat)
  | ConnectInternal (handle : Nat) (recv_mrs : List Nat) (fds : List Nat)
  | Bind (listener : Nat)
  | NewMappedAddrs
  | NewMappedAddrsInternal (addr_map : List (Nat × Nat × Nat))
  | NewConnection (handle : Nat) (recv_mrs : List Nat)
  | NewConnectionInternal (handle : Nat) (recv_mrs : List Nat) (fds : List Nat)
deriving DecidableEq

/-- The variants of `mrpc::Error` reachable on the embedded paths
(`NoReponse` is spelled as in the source). -/
inductive MrpcError
  | TransportType
  | NoReponse
  | IpcTryRecv
deriving DecidableEq

deriving instance DecidableEq for Except

/-- The engine side of the internal `mpsc` channel `cmd_rx`.  `msgs` holds
the `cmd::Completion` values already sent and not yet received; once they
are exhausted, `senderClosed` decides whether a receive sees
`Disconnected` (sender dropped) or `Empty` / blocks. -/
structure InternalChan where
  msgs : List (Except MrpcError CmdCompletionKind)
  senderClosed : Bool
deriving DecidableEq

/-- `marshal::ShmBuf`. -/
structure ShmBuf where
  ptr : Nat
  len : Nat
deriving DecidableEq

/-- The mutable fields of `MrpcEngine` touched by `resume`:
`dp_spin_cnt`, `backoff`, `transport_type`, `last_cmd_ts` (an `Instant`,
modelled in milliseconds) and the address map held in
`state.resource()`. -/
structure EngineState where
  dp_spin_cnt : Nat
  backoff : Nat
  transport_type : Option TransportType
  last_cmd_ts : Nat
  addr_map : List (Nat × ShmBuf)
deriving DecidableEq

/-- The variants of `ipc::mrpc::cmd::Command` matched by `process_cmd`.
Socket addresses and the payloads forwarded verbatim are opaque. -/
inductive Command
  | SetTransport (t : TransportType)
  | AllocShm (nbytes : Nat)
  | Connect (addr : Nat)
  | Bind (addr : Nat)
  | NewMappedAddrs (app_vaddrs : List (Nat × Nat × Nat))
deriving DecidableEq

/-- Outcome of one `process_cmd` call.  `blocked` is a
`cmd_rx.recv()` executed with no pending message and a live sender (the
call stalls until another engine replies); `panicked` is the
`panic!("unexpected: ...")` on a completion of the wrong kind, or the
`unwrap()` of a `recv()` on a disconnected channel. -/
inductive ProcOutcome
  | ok (res : CmdCompletionKind)
  | userErr (e : MrpcError)
  | blocked
  | panicked
deriving DecidableEq

/-- `MrpcEngine::create_transport`. -/
def create_transport (s : EngineState) (t : TransportType) : EngineState :=
  { s with transport_type := some t }

/-- One `cmd_rx.recv().unwrap()`: pops the next internal completion, or
reports blocking / the `unwrap` panic on a closed channel. -/
def chanRecv (chan : InternalChan) :
    Option (Except MrpcError CmdCompletionKind × InternalChan) ⊕ ProcOutcome :=
  match chan.msgs with
  | [] =>
      if chan.senderClosed then Sum.inr ProcOutcome.panicked
      else Sum.inr ProcOutcome.blocked
  | c :: rest => Sum.inl (some (c, { chan with msgs := rest }))

/-- `MrpcEngine::process_cmd`.  `cmd_tx.send(..)` to the companion engine
and `customer.send_fd(..)` are modelled as succeeding; the internal reply
channel is threaded through explicitly. -/
def process_cmd (s : EngineState) (req : Command) (chan : InternalChan) :
    ProcOutcome × EngineState × InternalChan :=
  match req with
  | Command.SetTransport t =>
      if s.transport_type.isSome then
        (ProcOutcome.userErr MrpcError.TransportType, s, chan)
      else
        (ProcOutcome.ok CmdCompletionKind.SetTransport, create_transport s t, chan)
  | Command.AllocShm _nbytes =>
      match chanRecv chan with
      | Sum.inr o => (o, s, chan)
      | Sum.inl none => (ProcOutcome.panicked, s, chan)
      | Sum.inl (some (c, chan2)) =>
          match c with
          | Except.ok (CmdCompletionKind.AllocShmInternal mr _memfd) =>
              (ProcOutcome.ok (CmdCompletionKind.AllocShm mr), s, chan2)
          | _ => (ProcOutcome.panicked, s, chan2)
  | Command.Connect _addr =>
      match chanRecv chan with
      | Sum.inr o => (o, s, chan)
      | Sum.inl none => (ProcOutcome.panicked, s, chan)
      | Sum.inl (some (c, chan2)) =>
          match c with
          | Except.ok (CmdCompletionKind.ConnectInternal handle recv_mrs _fds) =>
              (ProcOutcome.ok (CmdCompletionKind.Connect handle recv_mrs), s, chan2)
          | _ => (ProcOutcome.panicked, s, chan2)
  | Command.Bind _addr =>
      match chanRecv chan with
      | Sum.inr o => (o, s, chan)
      | Sum.inl none => (ProcOutcome.panicked, s, chan)
      | Sum.inl (some (c, chan2)) =>
          match c with
          | Except.ok (CmdCompletionKind.Bind listener) =>
              (ProcOutcome.ok (CmdCompletionKind.Bind listener), s, chan2)
          | _ => (ProcOutcome.panicked, s, chan2)
  | Command.NewMappedAddrs _app_vaddrs =>
      match chanRecv chan with
      | Sum.inr o => (o, s, chan)
      | Sum.inl none => (ProcOutcome.panicked, s, chan)
      | Sum.inl (some (c, chan2)) =>
          match c with
          | Except.ok (CmdCompletionKind.NewMappedAddrsInternal addr_map) =>
              (ProcOutcome.ok CmdCompletionKind.NewMappedAddrs,
               { s with addr_map :=
                  s.addr_map ++ addr_map.map (fun tup => (tup.1, ShmBuf.mk tup.2.1 tup.2.2)) },
               chan2)
          | _ => (ProcOutcome.panicked, s, chan2)

/-- Result of polling `customer.try_recv_cmd()`. -/
inductive CmdPoll
  | request (c : Command)
  | empty
  | disconnected
  | other
deriving DecidableEq

/-- Outcome of one `check_cmd` call.  `compSent` lists the completions
delivered to the customer via `send_comp` (modelled as succeeding);
`err` is the `Err(Error::IpcTryRecv)` return. -/
inductive CheckCmdResult
  | ok (st : Status) (s : EngineState) (chan : InternalChan)
      (compSent : List (Except MrpcError CmdCompletionKind))
  | err (s : EngineState) (chan : InternalChan)
  | blocked (s : EngineState) (chan : InternalChan)
  | panicked (s : EngineState) (chan : InternalChan)
deriving DecidableEq

/-- `MrpcEngine::check_cmd`. -/
def check_cmd (s : EngineState) (poll : CmdPoll) (chan : InternalChan) :
    CheckCmdResult :=
  match poll with
  | CmdPoll.request req =>
      match process_cmd s req chan with
      | (ProcOutcome.ok res, s2, chan2) =>
          CheckCmdResult.ok (Status.Progress 1) s2 chan2 [Except.ok res]
      | (ProcOutcome.userErr MrpcError.NoReponse, s2, chan2) =>
          CheckCmdResult.ok (Status.Progress 1) s2 chan2 []
      | (ProcOutcome.userErr e, s2, chan2) =>
          CheckCmdResult.ok (Status.Progress 1) s2 chan2 [Except.error e]
      | (ProcOutcome.blocked, s2, chan2) => CheckCmdResult.blocked s2 chan2
      | (ProcOutcome.panicked, s2, chan2) => CheckCmdResult.panicked s2 chan2
  | CmdPoll.empty => CheckCmdResult.ok (Status.Progress 0) s chan []
  | CmdPoll.disconnected => CheckCmdResult.ok Status.Disconnected s chan []
  | CmdPoll.other => CheckCmdResult.err s chan

/-- `MrpcEngine::check_new_incoming_connection`: a `try_recv` on the same
internal channel.  `none` is the `panic!("unexpected: ...")` on a
completion of the wrong kind; on a forwarded new connection the `send_fd`
and `send_comp` to the customer are modelled as succeeding, and the
forwarded completion is returned. -/
def check_new_incoming_connection (chan : InternalChan) :
    Option (Status × InternalChan × List (Except MrpcError CmdCompletionKind)) :=
  match chan.msgs with
  | [] =>
      if chan.senderClosed then some (Status.Disconnected, chan, [])
      else some (Status.Progress 0, chan, [])
  | c :: rest =>
      match c with
      | Except.ok (CmdCompletionKind.NewConnectionInternal handle recv_mrs _fds) =>
          some (Status.Progress 1, { chan with msgs := rest },
                [Except.ok (CmdCompletionKind.NewConnection handle recv_mrs)])
      | _ => none

/-- `engine::EngineStatus` (the `Error` arm travels through the `Result`
instead). -/
inductive EngineStatus
  | Continue
  | Complete
deriving DecidableEq

/-- Everything one `resume` call leaves behind: the engine state, the
remaining WQ, the messages sent on `tx_outputs()[0]`, the completions
appended to the CQ, the internal channel and the command completions sent
to the customer. -/
structure ResumeOut where
  s : EngineState
  wq : List WorkRequest
  txSent : List TxMsg
  cq : List DpCompletion
  chan : InternalChan
  compSent : List (Except MrpcError CmdCompletionKind)

/-- Result of one `resume` call.  `err` is an `Err(..)` return through
`?`; `blocked` marks the step stalled inside a blocking
`cmd_rx.recv()`; `cqRetry` marks the step still spinning in the
CQ enqueue retry loop after the modelled attempts. -/
inductive ResumeResult
  | ok (ret : EngineStatus) (out : ResumeOut)
  | err (out : ResumeOut)
  | panicked (out : ResumeOut)
  | blocked (out : ResumeOut)
  | cqRetry (out : ResumeOut)

/-- The environment one `resume` call runs against. -/
structure Env where
  txConnected : Bool
  wq : List WorkRequest
  availWcSlots : Nat
  rxOff : Nat → Int
  rx : RxPoll
  cqSlots : List Bool
  hasControlCmd : Bool
  now : Nat
  cmdPoll : CmdPoll
  chan : InternalChan

/-- Tail of `resume`: `self.check_new_incoming_connection()?;` followed by
`Ok(EngineStatus::Continue)` (the returned status is discarded). -/
def resume_tail (s : EngineState) (wq2 : List WorkRequest) (sent : List TxMsg)
    (cq2 : List DpCompletion) (chan : InternalChan)
    (comp1 : List (Except MrpcError CmdCompletionKind)) : ResumeResult :=
  match check_new_incoming_connection chan with
  | none => ResumeResult.panicked (ResumeOut.mk s wq2 sent cq2 chan comp1)
  | some (_st, chan2, comp2) =>
      ResumeResult.ok EngineStatus.Continue (ResumeOut.mk s wq2 sent cq2 chan2 (comp1 ++ comp2))

/-- The control block of `resume` (the branch taken when a control
command is pending or `last_cmd_ts` is stale): `check_cmd` with an early
`Complete` return on `Disconnected`, then the tail of `resume`.  `s4` is
the engine state after `last_cmd_ts` was refreshed and `backoff`
halved. -/
def resume_control (s4 : EngineState) (env : Env) (wq2 : List WorkRequest)
    (sent : List TxMsg) (cq2 : List DpCompletion) : ResumeResult :=
  match check_cmd s4 env.cmdPoll env.chan with
  | CheckCmdResult.blocked s5 chan2 =>
      ResumeResult.blocked (ResumeOut.mk s5 wq2 sent cq2 chan2 [])
  | CheckCmdResult.panicked s5 chan2 =>
      ResumeResult.panicked (ResumeOut.mk s5 wq2 sent cq2 chan2 [])
  | CheckCmdResult.err s5 chan2 =>
      ResumeResult.err (ResumeOut.mk s5 wq2 sent cq2 chan2 [])
  | CheckCmdResult.ok st2 s5 chan2 comp1 =>
      match st2 with
      | Status.Disconnected =>
          ResumeResult.ok EngineStatus.Complete (ResumeOut.mk s5 wq2 sent cq2 chan2 comp1)
      | Status.Progress _ => resume_tail s5 wq2 sent cq2 chan2 comp1

/-- `MrpcEngine::resume`, one cooperative step, with the in-place
mutations of the Rust code threaded through `EngineState`.  `flush_dp`
returns `Ok(Progress(0))` in the source and is inlined away. -/
def resume (s : EngineState) (env : Env) : ResumeResult :=
  match check_customer env.txConnected env.wq env.availWcSlots with
  | CustomerOutcome.panicked _c wq2 sent =>
      ResumeResult.panicked (ResumeOut.mk s wq2 sent [] env.chan [])
  | CustomerOutcome.dpError _c wq2 sent =>
      ResumeResult.err (ResumeOut.mk s wq2 sent [] env.chan [])
  | CustomerOutcome.ok st _c wq2 sent =>
      let s1 :=
        match st with
        | Status.Progress n =>
            if n > 0 then { s with backoff := Nat.min DP_LIMIT (s.backoff * 2) } else s
        | Status.Disconnected => s
      match check_input_queue env.rxOff env.rx [] env.cqSlots with
      | none => ResumeResult.cqRetry (ResumeOut.mk s1 wq2 sent [] env.chan [])
      | some (_stIn, cq2) =>
          let s2 := { s1 with dp_spin_cnt := s1.dp_spin_cnt + 1 }
          if s2.dp_spin_cnt < s2.backoff then
            ResumeResult.ok EngineStatus.Continue (ResumeOut.mk s2 wq2 sent cq2 env.chan [])
          else
            let s3 := { s2 with dp_spin_cnt := 0 }
            if env.hasControlCmd || decide (CMD_MAX_INTERVAL_MS < env.now - s3.last_cmd_ts) then
              let s4 := { s3 with last_cmd_ts := env.now,
                                  backoff := Nat.max 1 (s3.backoff / 2) }
              resume_control s4 env wq2 sent cq2
            else
              let s4 := { s3 with backoff := Nat.min DP_LIMIT (s3.backoff * 2) }
              resume_tail s4 wq2 sent cq2 env.chan []

/-- Projection: the engine state left behind by a `resume` call, whatever
the outcome. -/
def outOf : ResumeResult → ResumeOut
  | ResumeResult.ok _ out => out
  | ResumeResult.err out => out
  | ResumeResult.panicked out => out
  | ResumeResult.blocked out => out
  | ResumeResult.cqRetry out => out

/-- Projection: the `backoff` counter after a `resume` call. -/
def backoffAfter (r : ResumeResult) : Nat := (outOf r).s.backoff

/-- Projection: whether a `resume` call returned
`Ok(EngineStatus::Complete)`. -/
def isCompleteResult : ResumeResult → Bool
  | ResumeResult.ok EngineStatus.Complete _ => true
  | _ => false

/-- Projection: whether a `resume` call stalled in a blocking
`cmd_rx.recv()`. -/
def isBlockedResult : ResumeResult → Bool
  | ResumeResult.blocked _ => true
  | _ => false

/-- Projection: the number of work requests `check_customer` consumed. -/
def consumedOf : CustomerOutcome → Nat
  | CustomerOutcome.ok _ c _ _ => c
  | CustomerOutcome.dpError c _ _ => c
  | CustomerOutcome.panicked c _ _ => c

/-- Projection: the `func_id` of a work request. -/
def wrFuncId : WorkRequest → Nat
  | WorkRequest.Call erased => erased.meta.func_id
  | WorkRequest.Reply erased => erased.meta.func_id

/-- The message `process_dp` reconstructs from a `func_id = 0` work
request. -/
def reconstructHello : WorkRequest → TxMsg
  | WorkRequest.Call erased => TxMsg.helloRequest erased
  | WorkRequest.Reply erased => TxMsg.helloReply erased

/-!
Configuration (`src/koala/src/config.rs`).  `Config::from_path` reads a
file and runs the serde/toml deserialiser derived for `Config` and its
nested structs, each carrying `#[serde(deny_unknown_fields)]`.  The
embedding starts from a parsed TOML document (text-level TOML parsing is
not modelled) and reproduces the derived deserialiser: every declared
field is looked up by name (or by its `#[serde(alias)]`), `Option` fields
may be absent, and any key outside the declared set is rejected.
-/

/-- A parsed TOML value. -/
inductive Toml
  | str (s : String)
  | int (n : Int)
  | bool (b : Bool)
  | arr (elems : List Toml)
  | table (fields : List (String × Toml))

/-- Key lookup in a parsed TOML table. -/
def tomlLookup (fields : List (String × Toml)) (key : String) : Option Toml :=
  match fields with
  | [] => none
  | (k, v) :: rest => if k = key then some v else tomlLookup rest key

/-- Deserialise a TOML string. -/
def asStr : Option Toml → Option String
  | some (Toml.str s) => some s
  | _ => none

/-- Deserialise a TOML integer into an unsigned machine integer
(`usize` / `u32`). -/
def asNat : Option Toml → Option Nat
  | some (Toml.int n) => if n < 0 then none else some n.toNat
  | _ => none

/-- Deserialise a TOML array of strings (`Vec<String>`). -/
def strList : List Toml → Option (List String)
  | [] => some []
  | Toml.str s :: rest => (strList rest).map (fun l => s :: l)
  | _ :: _ => none

/-- Deserialise a TOML array of arrays of strings (`Vec<Vec<String>>`). -/
def strListList : List Toml → Option (List (List String))
  | [] => some []
  | Toml.arr xs :: rest =>
      match strList xs, strListList rest with
      | some l, some ls => some (l :: ls)
      | _, _ => none
  | _ :: _ => none

/-- Modelled from the spec: `interface::engine::EngineType` (not among the
source files) deserialises from the engine-type name. -/
structure EngineType where
  name : String
deriving DecidableEq

/-- `config::Node`. -/
structure Node where
  id : String
  engine_type : EngineType
deriving DecidableEq

/-- `config::Edges`. -/
structure Edges where
  egress : List (List String)
  ingress : List (List String)
deriving DecidableEq

/-- `config::Control`.  The first field is called `prefix` in the source;
Lean reserves that word, so the embedding calls it `prefix_path`. -/
structure Control where
  prefix_path : String
  path : String
deriving DecidableEq

/-- `config::RdmaTransportConfig` (again with `prefix` renamed). -/
structure RdmaTransportConfig where
  prefix_path : String
  engine_basename : String
  datapath_wq_depth : Nat
  datapath_cq_depth : Nat
  command_max_interval_ms : Nat
deriving DecidableEq

/-- `config::Config`. -/
structure Config where
  log_env : String
  default_log_level : String
  modules : List String
  control : Control
  transport_rdma : Option RdmaTransportConfig
  node : List Node
  edges : Edges
deriving DecidableEq

/-- The field names the derived `Node` deserialiser accepts (`type` is an
alias of `engine_type`). -/
def nodeKeys : List String := ["id", "engine_type", "type"]

/-- The derived deserialiser of `Node` (`deny_unknown_fields`). -/
def deNode (v : Toml) : Except String Node :=
  match v with
  | Toml.table fields =>
      if fields.all (fun kv => decide (kv.1 ∈ nodeKeys)) then
        match asStr (tomlLookup fields "id"),
              asStr ((tomlLookup fields "engine_type").orElse
                       (fun _ => tomlLookup fields "type")) with
        | some i, some t => Except.ok (Node.mk i (EngineType.mk t))
        | _, _ => Except.error "invalid Node"
      else Except.error "unknown field in Node"
  | _ => Except.error "Node: expected table"

/-- Deserialise the `node` array. -/
def deNodes : List Toml → Except String (List Node)
  | [] => Except.ok []
  | v :: rest => do
      let n ← deNode v
      let ns ← deNodes rest
      Except.ok (n :: ns)

/-- The derived deserialiser of `Edges` (`deny_unknown_fields`). -/
def deEdges (v : Toml) : Except String Edges :=
  match v with
  | Toml.table fields =>
      if fields.all (fun kv => decide (kv.1 ∈ (["egress", "ingress"] : List String))) then
        match tomlLookup fields "egress", tomlLookup fields "ingress" with
        | some (Toml.arr es), some (Toml.arr ins) =>
            match strListList es, strListList ins with
            | some egs, some ings => Except.ok (Edges.mk egs ings)
            | _, _ => Except.error "Edges: invalid element"
        | _, _ => Except.error "Edges: missing field"
      else Except.error "unknown field in Edges"
  | _ => Except.error "Edges: expected table"

/-- The derived deserialiser of `Control` (`deny_unknown_fields`). -/
def deControl (v : Toml) : Except String Control :=
  match v with
  | Toml.table fields =>
      if fields.all (fun kv => decide (kv.1 ∈ (["prefix", "path"] : List String))) then
        match asStr (tomlLookup fields "prefix"), asStr (tomlLookup fields "path") with
        | some p, some q => Except.ok (Control.mk p q)
        | _, _ => Except.error "Control: invalid field"
      else Except.error "unknown field in Control"
  | _ => Except.error "Control: expected table"

/-- The field names the derived `RdmaTransportConfig` deserialiser
accepts. -/
def rdmaKeys : List String :=
  ["prefix", "engine_basename", "datapath_wq_depth", "datapath_cq_depth",
   "command_max_interval_ms"]

/-- The derived deserialiser of `RdmaTransportConfig`
(`deny_unknown_fields`). -/
def deRdma (v : Toml) : Except String RdmaTransportConfig :=
  match v with
  | Toml.table fields =>
      if fields.all (fun kv => decide (kv.1 ∈ rdmaKeys)) then
        match asStr (tomlLookup fields "prefix"),
              asStr (tomlLookup fields "engine_basename"),
              asNat (tomlLookup fields "datapath_wq_depth"),
              asNat (tomlLookup fields "datapath_cq_depth"),
              asNat (tomlLookup fields "command_max_interval_ms") with
        | some p, some b, some w, some c, some m =>
            Except.ok (RdmaTransportConfig.mk p b w c m)
        | _, _, _, _, _ => Except.error "RdmaTransportConfig: invalid field"
      else Except.error "unknown field in RdmaTransportConfig"
  | _ => Except.error "RdmaTransportConfig: expected table"

/-- The field names the derived `Config` deserialiser accepts
(`transport-rdma` is an alias of `transport_rdma`). -/
def configKeys : List String :=
  ["log_env", "default_log_level", "modules", "control",
   "transport_rdma", "transport-rdma", "node", "edges"]

/-- `Config::from_path` after `fs::read_to_string`: the
`toml::from_str::<Config>` deserialisation of a parsed TOML document
(`deny_unknown_fields` on every struct). -/
def Config.from_toml (v : Toml) : Except String Config :=
  match v with
  | Toml.table fields =>
      if fields.all (fun kv => decide (kv.1 ∈ configKeys)) then
        match asStr (tomlLookup fields "log_env"),
              asStr (tomlLookup fields "default_log_level"),
              tomlLookup fields "modules",
              tomlLookup fields "control",
              tomlLookup fields "node",
              tomlLookup fields "edges" with
        | some le, some dll, some (Toml.arr mods), some cv, some (Toml.arr ns), some ev =>
            match strList mods, deControl cv, deNodes ns, deEdges ev with
            | some mods2, Except.ok ctl, Except.ok ns2, Except.ok es2 =>
                match (tomlLookup fields "transport_rdma").orElse
                        (fun _ => tomlLookup fields "transport-rdma") with
                | none =>
                    Except.ok (Config.mk le dll mods2 ctl none ns2 es2)
                | some tv =>
                    match deRdma tv with
                    | Except.ok r => Except.ok (Config.mk le dll mods2 ctl (some r) ns2 es2)
                    | Except.error e => Except.error e
            | _, _, _, _ => Except.error "Config: invalid field"
        | _, _, _, _, _, _ => Except.error "Config: missing field"
      else Except.error "unknown field in Config"
  | _ => Except.error "Config: expected table"

/-- Projection: the engine state carried by a `check_cmd` result. -/
def ccState : CheckCmdResult → EngineState
  | CheckCmdResult.ok _ s _ _ => s
  | CheckCmdResult.err s _ => s
  | CheckCmdResult.blocked s _ => s
  | CheckCmdResult.panicked s _ => s

/-!
Concrete sample states and environments used by the witnesses and
counterexamples below.
-/

/-- An idle internal channel (no pending completion, sender alive). -/
def idleChan : InternalChan := InternalChan.mk [] false

/-- Engine state observing no traffic, with `backoff = 2` and a spin count
about to exhaust its budget. -/
def s_c1 : EngineState := EngineState.mk 1 2 none 0 []

/-- Environment with empty WQ, no CQ-slot pressure, no control command and
a fresh clock. -/
def env_c1 : Env :=
  Env.mk true [] 0 (fun _ => 0) RxPoll.empty [true] false 0 CmdPoll.empty idleChan

/-- Fresh engine state with `backoff = 1`. -/
def s_w1 : EngineState := EngineState.mk 0 1 none 0 []

/-- Quiet environment (nothing pending anywhere). -/
def env_w1 : Env :=
  Env.mk true [] 0 (fun _ => 0) RxPoll.empty [] false 0 CmdPoll.empty idleChan

/-- An erased `HelloRequest` call record (`func_id = 0`). -/
def helloErased : MessageTemplateErased :=
  MessageTemplateErased.mk (MessageMeta.mk 1 0 42 1000 RpcMsgType.Request) 4096

/-- A WQ work request carrying `helloErased`. -/
def wrHello : WorkRequest := WorkRequest.Call helloErased

/-- An erased record with an unimplemented `func_id = 5`. -/
def erased5 : MessageTemplateErased :=
  MessageTemplateErased.mk (MessageMeta.mk 1 5 7 64 RpcMsgType.Request) 4096

/-- Engine state with a spin budget of 8. -/
def s_c2 : EngineState := EngineState.mk 0 8 none 0 []

/-- Environment whose customer WQ holds exactly one `Call` work request
and whose CQ has 8 free slots. -/
def env_c2 : Env :=
  Env.mk true [wrHello] 8 (fun _ => 0) RxPoll.empty [] false 0 CmdPoll.empty idleChan

/-- Engine state still inside its spin budget. -/
def s_c3 : EngineState := EngineState.mk 1 4 none 0 []

/-- Environment whose rx input queue reports `Disconnected`. -/
def env_c3 : Env :=
  Env.mk true [] 0 (fun _ => 0) RxPoll.disconnected [] false 0 CmdPoll.empty idleChan

/-- Engine state whose spin budget is exhausted on the next step. -/
def s_w3 : EngineState := EngineState.mk 0 1 none 0 []

/-- Environment with a pending control command poll that reports
`Disconnected`. -/
def env_w3 : Env :=
  Env.mk true [] 0 (fun _ => 0) RxPoll.empty [] true 5 CmdPoll.disconnected idleChan

/-- The output `resume` produces on `s_w3` / `env_w3`. -/
def out_w3 : ResumeOut :=
  ResumeOut.mk (EngineState.mk 0 1 none 5 []) [] [] [] idleChan []

/-- Engine state with no transport set. -/
def s_c4 : EngineState := EngineState.mk 0 1 none 0 []

/-- A sample inbound message (a request). -/
def m_w5 : RpcMessageModel := RpcMessageModel.mk 1 0 9 100 true 4096

/-- A sample inbound message (a response, with a negative shm offset). -/
def m_w6 : RpcMessageModel := RpcMessageModel.mk 3 0 11 256 false 8192

/-- Engine state about to run its control branch. -/
def s_c8 : EngineState := EngineState.mk 0 1 none 0 []

/-- Environment with a pending `AllocShm` command and an empty internal
reply channel. -/
def env_c8 : Env :=
  Env.mk true [] 0 (fun _ => 0) RxPoll.empty [] true 0
    (CmdPoll.request (Command.AllocShm 1024)) idleChan

/-- A parsed TOML document for `Config` in which two `node` entries share
the id `"a"` and the `edges` mention an id `"zzz"` that no node
declares. -/
def cfgDupFields : List (String × Toml) :=
  [("log_env", Toml.str "KOALA_LOG"),
   ("default_log_level", Toml.str "info"),
   ("modules", Toml.arr [Toml.str "Mrpc"]),
   ("control", Toml.table [("prefix", Toml.str "/tmp/koala"),
                           ("path", Toml.str "control.sock")]),
   ("node", Toml.arr
      [Toml.table [("id", Toml.str "a"), ("type", Toml.str "MrpcEngine")],
       Toml.table [("id", Toml.str "a"), ("type", Toml.str "RpcAdapterEngine")]]),
   ("edges", Toml.table
      [("egress", Toml.arr [Toml.arr [Toml.str "a", Toml.str "zzz"]]),
       ("ingress", Toml.arr [Toml.arr [Toml.str "zzz", Toml.str "a"]])])]

/-- The `Config` value the deserialiser produces from `cfgDupFields`. -/
def cfgDup : Config :=
  Config.mk "KOALA_LOG" "info" ["Mrpc"] (Control.mk "/tmp/koala" "control.sock") none
    [Node.mk "a" (EngineType.mk "MrpcEngine"), Node.mk "a" (EngineType.mk "RpcAdapterEngine")]
    (Edges.mk [["a", "zzz"]] [["zzz", "a"]])

/-!
Helper lemmas.
-/

/-- The `process_dp` loop of `check_customer` hands back the `consumed`
count untouched, whatever happens to the individual work requests. -/
theorem process_batch_consumed (tc : Bool) (c : Nat) (w : List WorkRequest) :
    ∀ (l : List WorkRequest) (acc : List TxMsg),
      consumedOf (process_batch tc c w l acc) = c := by
  intro l
  induction l with
  | nil => intro acc; rfl
  | cons wr rest ih =>
      intro acc
      unfold process_batch
      cases hd : process_dp tc wr with
      | ok m => exact ih (acc ++ [m])
      | sendErr => rfl
      | panicked => rfl

/-- When the `process_dp` loop finishes without error it returns
`Progress 0` and the `consumed` count it was given. -/
theorem process_batch_status (tc : Bool) (c : Nat) (w : List WorkRequest) :
    ∀ (l : List WorkRequest) (acc : List TxMsg) (st : Status) (c2 : Nat)
      (w2 : List WorkRequest) (snt : List TxMsg),
      process_batch tc c w l acc = CustomerOutcome.ok st c2 w2 snt →
      st = Status.Progress 0 ∧ c2 = c := by
  intro l
  induction l with
  | nil =>
      intro acc st c2 w2 snt h
      unfold process_batch at h
      injection h with h1 h2 h3 h4
      exact ⟨h1.symm, h2.symm⟩
  | cons wr rest ih =>
      intro acc st c2 w2 snt h
      unfold process_batch at h
      cases hd : process_dp tc wr with
      | ok m => rw [hd] at h; exact ih (acc ++ [m]) st c2 w2 snt h
      | sendErr => rw [hd] at h; cases h
      | panicked => rw [hd] at h; cases h

/-- `check_customer` always reports `Progress 0`, even after consuming
work requests. -/
theorem check_customer_status (tc : Bool) (wq : List WorkRequest) (avail : Nat)
    (st : Status) (c : Nat) (w : List WorkRequest) (snt : List TxMsg)
    (h : check_customer tc wq avail = CustomerOutcome.ok st c w snt) :
    st = Status.Progress 0 := by
  unfold check_customer at h
  by_cases h0 : Nat.min BUF_LEN avail = 0
  · rw [if_pos h0] at h
    injection h with h1 h2 h3 h4
    exact h1.symm
  · rw [if_neg h0] at h
    exact (process_batch_status tc _ _ _ _ st c w snt h).1

/-- The retry loop of `check_input_queue` terminates as soon as a CQ slot
is free, and then it has appended exactly one completion. -/
theorem enqueue_wc_loop_mem (c : DpCompletion) (cq : List DpCompletion) :
    ∀ slots : List Bool, true ∈ slots → enqueue_wc_loop c cq slots = some (cq ++ [c]) := by
  intro slots h
  induction slots with
  | nil => cases h
  | cons b rest ih =>
      cases b
      · have hr : true ∈ rest := by
          cases h with
          | tail _ h2 => exact h2
        simpa [enqueue_wc_loop] using ih hr
      · simp [enqueue_wc_loop]

/-- `process_cmd` never changes the `backoff` counter. -/
theorem process_cmd_backoff (s : EngineState) (req : Command) (chan : InternalChan) :
    (process_cmd s req chan).2.1.backoff = s.backoff := by
  obtain ⟨msgs, closed⟩ := chan
  cases req <;>
    cases msgs <;>
      simp only [process_cmd, chanRecv, create_transport] <;>
        (repeat' split) <;> rfl

/-- `check_cmd` never changes the `backoff` counter. -/
theorem check_cmd_backoff (s : EngineState) (poll : CmdPoll) (chan : InternalChan) :
    (ccState (check_cmd s poll chan)).backoff = s.backoff := by
  cases poll with
  | request req =>
      have hp := process_cmd_backoff s req chan
      rcases hres : process_cmd s req chan with ⟨o, s2, chan2⟩
      rw [hres] at hp
      simp only [check_cmd, hres]
      cases o with
      | ok res => simpa [ccState] using hp
      | userErr e => cases e <;> simpa [ccState] using hp
      | blocked => simpa [ccState] using hp
      | panicked => simpa [ccState] using hp
  | empty => rfl
  | disconnected => rfl
  | other => rfl

/-- The tail of `resume` (`check_new_incoming_connection`) leaves
`backoff` unchanged. -/
theorem resume_tail_backoff (s : EngineState) (wq2 : List WorkRequest)
    (sent : List TxMsg) (cq2 : List DpCompletion) (chan : InternalChan)
    (comp1 : List (Except MrpcError CmdCompletionKind)) :
    backoffAfter (resume_tail s wq2 sent cq2 chan comp1) = s.backoff := by
  unfold resume_tail
  cases hc : check_new_incoming_connection chan with
  | none => rfl
  | some p =>
      obtain ⟨st, chan2, comp2⟩ := p
      rfl

/-- The tail of `resume` never returns `Complete`. -/
theorem resume_tail_not_complete (s : EngineState) (wq2 : List WorkRequest)
    (sent : List TxMsg) (cq2 : List DpCompletion) (chan : InternalChan)
    (comp1 : List (Except MrpcError CmdCompletionKind)) (out : ResumeOut) :
    resume_tail s wq2 sent cq2 chan comp1 ≠ ResumeResult.ok EngineStatus.Complete out := by
  unfold resume_tail
  cases hc : check_new_incoming_connection chan with
  | none => simp
  | some p =>
      obtain ⟨st, chan2, comp2⟩ := p
      simp

/-- `check_cmd` reports `Disconnected` only when `try_recv_cmd` itself
reported `Disconnected`. -/
theorem check_cmd_disconnected (s : EngineState) (poll : CmdPoll) (chan : InternalChan)
    (s5 : EngineState) (chan2 : InternalChan)
    (comp1 : List (Except MrpcError CmdCompletionKind))
    (h : check_cmd s poll chan = CheckCmdResult.ok Status.Disconnected s5 chan2 comp1) :
    poll = CmdPoll.disconnected := by
  cases poll with
  | request req =>
      rcases hres : process_cmd s req chan with ⟨o, s2, chan3⟩
      simp only [check_cmd, hres] at h
      cases o with
      | ok res => simp at h
      | userErr e => cases e <;> simp at h
      | blocked => simp at h
      | panicked => simp at h
  | empty => simp [check_cmd] at h
  | disconnected => rfl
  | other => simp [check_cmd] at h

/-- The control block of `resume` leaves `backoff` exactly where
`check_cmd` leaves it: at the value it was entered with. -/
theorem resume_control_backoff (s4 : EngineState) (env : Env)
    (wq2 : List WorkRequest) (sent : List TxMsg) (cq2 : List DpCompletion) :
    backoffAfter (resume_control s4 env wq2 sent cq2) = s4.backoff := by
  have hb := check_cmd_backoff s4 env.cmdPoll env.chan
  unfold resume_control
  rcases hc : check_cmd s4 env.cmdPoll env.chan with ⟨st2, s5, chan2, comp1⟩ | ⟨s5, chan2⟩ | ⟨s5, chan2⟩ | ⟨s5, chan2⟩
  · rw [hc] at hb
    cases st2 with
    | Progress n =>
        rw [resume_tail_backoff]
        simpa [ccState] using hb
    | Disconnected => simpa [ccState, backoffAfter, outOf] using hb
  · rw [hc] at hb
    simpa [ccState, backoffAfter, outOf] using hb
  · rw [hc] at hb
    simpa [ccState, backoffAfter, outOf] using hb
  · rw [hc] at hb
    simpa [ccState, backoffAfter, outOf] using hb

/-- The control block of `resume` returns `Complete` only when
`try_recv_cmd` reported `Disconnected`. -/
theorem resume_control_complete (s4 : EngineState) (env : Env)
    (wq2 : List WorkRequest) (sent : List TxMsg) (cq2 : List DpCompletion)
    (out : ResumeOut)
    (h : resume_control s4 env wq2 sent cq2 = ResumeResult.ok EngineStatus.Complete out) :
    env.cmdPoll = CmdPoll.disconnected := by
  unfold resume_control at h
  rcases hc : check_cmd s4 env.cmdPoll env.chan with ⟨st2, s5, chan2, comp1⟩ | ⟨s5, chan2⟩ | ⟨s5, chan2⟩ | ⟨s5, chan2⟩ <;> rw [hc] at h
  · cases st2 with
    | Progress n => exact absurd h (resume_tail_not_complete _ _ _ _ _ _ _)
    | Disconnected => exact check_cmd_disconnected _ _ _ _ _ _ hc
  · simp at h
  · simp at h
  · simp at h

/-- Every `resume` call leaves `backoff` either unchanged, halved with
floor 1 (control branch), or doubled saturating at `DP_LIMIT`. -/
theorem resume_backoff_cases (s : EngineState) (env : Env) :
    backoffAfter (resume s env) = s.backoff ∨
    backoffAfter (resume s env) = Nat.max 1 (s.backoff / 2) ∨
    backoffAfter (resume s env) = Nat.min DP_LIMIT (s.backoff * 2) := by
  rcases hcc : check_customer env.txConnected env.wq env.availWcSlots with
    ⟨st, c, w, snt⟩ | ⟨c, w, snt⟩ | ⟨c, w, snt⟩
  · have hst := check_customer_status _ _ _ _ _ _ _ hcc
    subst hst
    rcases hin : check_input_queue env.rxOff env.rx [] env.cqSlots with _ | ⟨stIn, cq2⟩
    · left
      simp [resume, hcc, hin, backoffAfter, outOf]
    · by_cases hspin : s.dp_spin_cnt + 1 < s.backoff
      · left
        simp [resume, hcc, hin, hspin, backoffAfter, outOf]
      · by_cases hctl :
          (env.hasControlCmd || decide (CMD_MAX_INTERVAL_MS < env.now - s.last_cmd_ts)) = true
        · right; left
          simp [resume, hcc, hin, hspin, hctl, resume_control_backoff]
        · right; right
          simp only [Bool.not_eq_true] at hctl
          simp [resume, hcc, hin, hspin, hctl, resume_tail_backoff]
  · left
    simp [resume, hcc, backoffAfter, outOf]
  · left
    simp [resume, hcc, backoffAfter, outOf]

/-!
Claim theorems.
-/

/-- Claim C2 (code bug): a `resume` step whose `check_customer` dequeues
and processes one work request is supposed to double `backoff`; in the
code `check_customer` returns `Progress(0)` even after consuming the
request (here `consumed = 1`), so the `n > 0` doubling branch of `resume`
never fires and `backoff` stays at 8 instead of doubling to 16. -/
theorem C2_code_bug :
    check_customer true [wrHello] 8 =
      CustomerOutcome.ok (Status.Progress 0) 1 [] [TxMsg.helloRequest helloErased] ∧
    s_c2.backoff = 8 ∧ env_c2.wq = [wrHello] ∧
    backoffAfter (resume s_c2 env_c2) = 8 :=
  ⟨rfl, rfl, rfl, rfl⟩

/-- Claim C4: processing `SetTransport` fails with `Error::TransportType`
exactly when a transport type is already set; on that error the
`transport_type` field is unchanged, and on success it becomes the
requested value and the `SetTransport` completion kind is returned. -/
theorem C4_set_transport (s : EngineState) (t : TransportType) (chan : InternalChan) :
    ((process_cmd s (Command.SetTransport t) chan).1 =
        ProcOutcome.userErr MrpcError.TransportType ↔ s.transport_type.isSome = true) ∧
    (s.transport_type.isSome = true →
       (process_cmd s (Command.SetTransport t) chan).2.1 = s) ∧
    (s.transport_type = none →
       process_cmd s (Command.SetTransport t) chan =
         (ProcOutcome.ok CmdCompletionKind.SetTransport,
          { s with transport_type := some t }, chan)) := by
  cases h : s.transport_type <;>
    simp [process_cmd, create_transport, h]

/-- Witness for C4 at a concrete engine state with no transport set. -/
theorem C4_witness :
    process_cmd s_c4 (Command.SetTransport TransportType.Rdma) idleChan =
      (ProcOutcome.ok CmdCompletionKind.SetTransport,
       { s_c4 with transport_type := some TransportType.Rdma }, idleChan) :=
  (C4_set_transport s_c4 TransportType.Rdma idleChan).2.2 rfl

/-- Claim C5: for every message received from `rx_inputs[0]`,
`check_input_queue` appends exactly one completion to the customer CQ
before returning; a momentarily full CQ only delays the enqueue (the loop
retries within the same step) and the completion is never dropped. -/
theorem C5_cq_never_drops (off : Nat → Int) (m : RpcMessageModel)
    (cq : List DpCompletion) (slots : List Bool) (h : true ∈ slots) :
    ∃ c : DpCompletion,
      check_input_queue off (RxPoll.recvMsg m) cq slots =
        some (Status.Progress 0, cq ++ [c]) := by
  refine ⟨DpCompletion.mk (MessageTemplateErased.mk
    (MessageMeta.mk m.conn_id m.func_id m.call_id m.len
      (if m.is_request then RpcMsgType.Request else RpcMsgType.Response))
    (wrap64 ((m.addr : Int) + off m.addr))), ?_⟩
  simp [check_input_queue, enqueue_wc_loop_mem _ _ _ h]

/-- Witness for C5: the CQ is full on the first attempt and frees up on
the second. -/
theorem C5_witness :
    ∃ c : DpCompletion,
      check_input_queue (fun _ => 7) (RxPoll.recvMsg m_w5) [] [false, true] =
        some (Status.Progress 0, [] ++ [c]) :=
  C5_cq_never_drops (fun _ => 7) m_w5 [] [false, true] (by decide)

/-- Claim C6: the completion built for a message taken from
`rx_inputs[0]` carries a `MessageMeta` equal to the message's accessor
values, with `msg_type = Request` exactly when `is_request()` holds, and
a `shmptr` equal to the message address offset by `query_shm_offset` of
that address (with `u64` wrap-around). -/
theorem C6_meta_faithful (off : Nat → Int) (m : RpcMessageModel)
    (cq : List DpCompletion) (slots : List Bool) (h : true ∈ slots) :
    check_input_queue off (RxPoll.recvMsg m) cq slots =
      some (Status.Progress 0,
        cq ++ [DpCompletion.mk (MessageTemplateErased.mk
          (MessageMeta.mk m.conn_id m.func_id m.call_id m.len
            (if m.is_request then RpcMsgType.Request else RpcMsgType.Response))
          (wrap64 ((m.addr : Int) + off m.addr)))]) := by
  simp [check_input_queue, enqueue_wc_loop_mem _ _ _ h]

/-- Witness for C6 at a concrete response message with a negative shm
offset. -/
theorem C6_witness :
    check_input_queue (fun _ => -4096) (RxPoll.recvMsg m_w6) [] [true] =
      some (Status.Progress 0,
        [] ++ [DpCompletion.mk (MessageTemplateErased.mk
          (MessageMeta.mk m_w6.conn_id m_w6.func_id m_w6.call_id m_w6.len
            (if m_w6.is_request then RpcMsgType.Request else RpcMsgType.Response))
          (wrap64 ((m_w6.addr : Int) + (fun _ => (-4096 : Int)) m_w6.addr)))]) :=
  C6_meta_faithful (fun _ => -4096) m_w6 [] [true] (by decide)

/-- Claim C8 (code bug): `resume` is supposed never to block, but the
command-processing path for `AllocShm` (and `Connect`, `Bind`,
`NewMappedAddrs`) performs a blocking `cmd_rx.recv()`: with a pending
`AllocShm` command and an empty internal reply channel the step stalls
inside the receive. -/
theorem C8_blocking_recv :
    env_c8.cmdPoll = CmdPoll.request (Command.AllocShm 1024) ∧
    env_c8.chan.msgs = [] ∧
    isBlockedResult (resume s_c8 env_c8) = true :=
  ⟨rfl, rfl, rfl⟩

/-- Claim C9: `process_dp` panics (`unimplemented!`) on every work
request whose `func_id` is not 0, and reconstructs and sends the hello
message on `tx_outputs[0]` when `func_id` is 0. -/
theorem C9_func_id (tc : Bool) (wr : WorkRequest) :
    (wrFuncId wr ≠ 0 → process_dp tc wr = DpStep.panicked) ∧
    (wrFuncId wr = 0 →
       process_dp tc wr =
         if tc then DpStep.ok (reconstructHello wr) else DpStep.sendErr) := by
  cases wr with
  | Call e =>
      cases he : e.meta.func_id <;>
        simp [process_dp, wrFuncId, reconstructHello, he]
  | Reply e =>
      cases he : e.meta.func_id <;>
        simp [process_dp, wrFuncId, reconstructHello, he]

/-- Witness for C9 at a concrete `Call` with `func_id = 5`. -/
theorem C9_witness : process_dp true (WorkRequest.Call erased5) = DpStep.panicked :=
  (C9_func_id true (WorkRequest.Call erased5)).1 (by decide)

/-- Claim C10: one `check_customer` call dequeues at most
`min (BUF_LEN = 32) avail` work requests from the customer WQ. -/
theorem C10_batch_cap (tc : Bool) (wq : List WorkRequest) (avail : Nat) :
    consumedOf (check_customer tc wq avail) ≤ Nat.min 32 avail := by
  unfold check_customer
  have hb : BUF_LEN = 32 := rfl
  by_cases h0 : Nat.min BUF_LEN avail = 0
  · rw [if_pos h0]
    simp [consumedOf]
  · rw [if_neg h0]
    rw [process_batch_consumed]
    rw [hb]
    exact Nat.min_le_left _ _

/-- Claim C1 (counterexample): with an empty WQ and no available slots
(`consumed = 0`, so no progress is observed) and no control work pending,
`resume` still doubles `backoff` from 2 to 4 when the spin budget runs
out — refuting "doubled only when progress is observed". -/
theorem C1_counterexample :
    s_c1.backoff = 2 ∧ env_c1.wq = [] ∧ env_c1.availWcSlots = 0 ∧
    consumedOf (check_customer env_c1.txConnected env_c1.wq env_c1.availWcSlots) = 0 ∧
    env_c1.hasControlCmd = false ∧
    backoffAfter (resume s_c1 env_c1) = 4 :=
  ⟨rfl, rfl, rfl, rfl, rfl, rfl⟩

/-- Claim C3 (counterexample): `check_input_queue` observes
`Disconnected` on the rx input queue, but `resume` discards that status
and returns `Continue`, not `Complete`. -/
theorem C3_counterexample :
    env_c3.rx = RxPoll.disconnected ∧
    isCompleteResult (resume s_c3 env_c3) = false :=
  ⟨rfl, rfl⟩

/-- Claim C1 (amended): starting from `backoff ∈ [1, DP_LIMIT]`, every
`resume` call leaves `backoff` in `[1, DP_LIMIT]`, and the counter moves
exactly as follows.  A step that aborts early (datapath error or panic,
or CQ retry) leaves it unchanged; while the spin budget lasts
(`dp_spin_cnt + 1 < backoff`) it is unchanged; once the budget is
exhausted it is halved to `max 1 (backoff / 2)` exactly when the control
branch runs (a control command is pending or `last_cmd_ts` is stale) and
doubled to `min DP_LIMIT (2 * backoff)` exactly otherwise.  So halving
happens only when control work is done, and doubling happens also with
no observed progress (the on-progress doubling branch at the top of
`resume` is unreachable because `check_customer` always reports zero
progress). -/
theorem C1_amended (s : EngineState) (env : Env)
    (h1 : 1 ≤ s.backoff) (h2 : s.backoff ≤ DP_LIMIT) :
    (1 ≤ backoffAfter (resume s env) ∧ backoffAfter (resume s env) ≤ DP_LIMIT) ∧
    (∀ (st : Status) (c : Nat) (w : List WorkRequest) (snt : List TxMsg)
       (p : Status × List DpCompletion),
       check_customer env.txConnected env.wq env.availWcSlots = CustomerOutcome.ok st c w snt →
       check_input_queue env.rxOff env.rx [] env.cqSlots = some p →
       ((s.dp_spin_cnt + 1 < s.backoff → backoffAfter (resume s env) = s.backoff) ∧
        (¬ (s.dp_spin_cnt + 1 < s.backoff) →
          (((env.hasControlCmd ||
               decide (CMD_MAX_INTERVAL_MS < env.now - s.last_cmd_ts)) = true →
              backoffAfter (resume s env) = Nat.max 1 (s.backoff / 2)) ∧
           ((env.hasControlCmd ||
               decide (CMD_MAX_INTERVAL_MS < env.now - s.last_cmd_ts)) = false →
              backoffAfter (resume s env) = Nat.min DP_LIMIT (s.backoff * 2)))))) ∧
    (∀ (c : Nat) (w : List WorkRequest) (snt : List TxMsg),
       check_customer env.txConnected env.wq env.availWcSlots = CustomerOutcome.dpError c w snt →
       backoffAfter (resume s env) = s.backoff) ∧
    (∀ (c : Nat) (w : List WorkRequest) (snt : List TxMsg),
       check_customer env.txConnected env.wq env.availWcSlots = CustomerOutcome.panicked c w snt →
       backoffAfter (resume s env) = s.backoff) ∧
    (check_input_queue env.rxOff env.rx [] env.cqSlots = none →
       backoffAfter (resume s env) = s.backoff) := by
  refine ⟨?_, ?_, ?_, ?_, ?_⟩
  · have hL1 : 1 ≤ DP_LIMIT := by decide
    rcases resume_backoff_cases s env with h | h | h <;> rw [h]
    · exact ⟨h1, h2⟩
    · exact ⟨Nat.le_max_left _ _,
        Nat.max_le.mpr ⟨hL1, le_trans (Nat.div_le_self s.backoff 2) h2⟩⟩
    · exact ⟨Nat.le_min.mpr ⟨hL1, by omega⟩, Nat.min_le_left _ _⟩
  · intro st c w snt p hcc hin
    have hst := check_customer_status _ _ _ _ _ _ _ hcc
    subst hst
    obtain ⟨stIn, cq2⟩ := p
    refine ⟨?_, ?_⟩
    · intro hspin
      simp [resume, hcc, hin, hspin, backoffAfter, outOf]
    · intro hspin
      refine ⟨?_, ?_⟩
      · intro hctl
        simp [resume, hcc, hin, hspin, hctl, resume_control_backoff]
      · intro hctl
        simp [resume, hcc, hin, hspin, hctl, resume_tail_backoff]
  · intro c w snt hcc
    simp [resume, hcc, backoffAfter, outOf]
  · intro c w snt hcc
    simp [resume, hcc, backoffAfter, outOf]
  · intro hin
    rcases hcc : check_customer env.txConnected env.wq env.availWcSlots with
      ⟨st, c, w, snt⟩ | ⟨c, w, snt⟩ | ⟨c, w, snt⟩
    · have hst := check_customer_status _ _ _ _ _ _ _ hcc
      subst hst
      simp [resume, hcc, hin, backoffAfter, outOf]
    · simp [resume, hcc, backoffAfter, outOf]
    · simp [resume, hcc, backoffAfter, outOf]

/-- Witness for C1: at a fresh engine state (`backoff = 1`) in a quiet
environment the spin budget is exhausted with no control work, and the
theorem yields both the bounds and the doubling equality. -/
theorem C1_witness :
    (1 ≤ backoffAfter (resume s_w1 env_w1) ∧ backoffAfter (resume s_w1 env_w1) ≤ DP_LIMIT) ∧
    backoffAfter (resume s_w1 env_w1) = Nat.min DP_LIMIT (s_w1.backoff * 2) :=
  ⟨(C1_amended s_w1 env_w1 (by decide) (by decide)).1,
   (((C1_amended s_w1 env_w1 (by decide) (by decide)).2.1
       (Status.Progress 0) 0 [] [] (Status.Progress 0, []) rfl rfl).2
     (by decide)).2 rfl⟩

/-- Claim C3 (amended): `resume` returns `Complete` only when the control
branch runs (a control command is pending or `last_cmd_ts` is stale) and
`try_recv_cmd` on the customer command channel observes `Disconnected`;
`Disconnected` statuses from the rx input queue and from the internal
completion channel are discarded and never produce `Complete`. -/
theorem C3_amended (s : EngineState) (env : Env) (out : ResumeOut)
    (h : resume s env = ResumeResult.ok EngineStatus.Complete out) :
    env.cmdPoll = CmdPoll.disconnected ∧
      (env.hasControlCmd = true ∨ CMD_MAX_INTERVAL_MS < env.now - s.last_cmd_ts) := by
  rcases hcc : check_customer env.txConnected env.wq env.availWcSlots with
    ⟨st, c, w, snt⟩ | ⟨c, w, snt⟩ | ⟨c, w, snt⟩
  · have hst := check_customer_status _ _ _ _ _ _ _ hcc
    subst hst
    rcases hin : check_input_queue env.rxOff env.rx [] env.cqSlots with _ | ⟨stIn, cq2⟩
    · simp [resume, hcc, hin] at h
    · by_cases hspin : s.dp_spin_cnt + 1 < s.backoff
      · simp [resume, hcc, hin, hspin] at h
      · by_cases hctl :
          (env.hasControlCmd || decide (CMD_MAX_INTERVAL_MS < env.now - s.last_cmd_ts)) = true
        · constructor
          · simp [resume, hcc, hin, hspin, hctl] at h
            exact resume_control_complete _ _ _ _ _ _ h
          · rcases (Bool.or_eq_true _ _).mp hctl with h1 | h1
            · exact Or.inl h1
            · exact Or.inr (of_decide_eq_true h1)
        · simp only [Bool.not_eq_true] at hctl
          simp [resume, hcc, hin, hspin, hctl] at h
          exact absurd h (resume_tail_not_complete _ _ _ _ _ _ _)
  · simp [resume, hcc] at h
  · simp [resume, hcc] at h

/-- Witness for C3: with a pending control command and a disconnected
command channel, `resume` does return `Complete`, and the theorem applies
to it. -/
theorem C3_witness :
    env_w3.cmdPoll = CmdPoll.disconnected ∧
      (env_w3.hasControlCmd = true ∨
       CMD_MAX_INTERVAL_MS < env_w3.now - s_w3.last_cmd_ts) :=
  C3_amended s_w3 env_w3 out_w3 rfl

/-- Claim C7 (counterexample): the deserialiser happily accepts a
configuration in which two nodes share the id `"a"` and the `edges`
mention an id `"zzz"` that appears in no node — `Config::from_path`
performs no uniqueness or cross-reference validation. -/
theorem C7_counterexample :
    Config.from_toml (Toml.table cfgDupFields) = Except.ok cfgDup ∧
    cfgDup.node.map Node.id = ["a", "a"] ∧
    cfgDup.edges.egress = [["a", "zzz"]] ∧
    (cfgDup.node.map Node.id).contains "zzz" = false :=
  ⟨rfl, rfl, rfl, rfl⟩

/-- Claim C7 (amended): `Config::from_path` rejects any TOML input
containing a field not declared in the configuration schema —
`deny_unknown_fields` holds at every level: a `Config`, `Node`, `Edges`,
`Control` or `RdmaTransportConfig` table deserialises successfully only
if every one of its keys is declared (aliases included).  It performs no
node-id uniqueness or edges-reference validation. -/
theorem C7_amended :
    (∀ (fields : List (String × Toml)) (c : Config),
       Config.from_toml (Toml.table fields) = Except.ok c →
       ∀ kv ∈ fields, kv.1 ∈ configKeys) ∧
    (∀ (fields : List (String × Toml)) (n : Node),
       deNode (Toml.table fields) = Except.ok n →
       ∀ kv ∈ fields, kv.1 ∈ nodeKeys) ∧
    (∀ (fields : List (String × Toml)) (e : Edges),
       deEdges (Toml.table fields) = Except.ok e →
       ∀ kv ∈ fields, kv.1 ∈ (["egress", "ingress"] : List String)) ∧
    (∀ (fields : List (String × Toml)) (ctl : Control),
       deControl (Toml.table fields) = Except.ok ctl →
       ∀ kv ∈ fields, kv.1 ∈ (["prefix", "path"] : List String)) ∧
    (∀ (fields : List (String × Toml)) (r : RdmaTransportConfig),
       deRdma (Toml.table fields) = Except.ok r →
       ∀ kv ∈ fields, kv.1 ∈ rdmaKeys) := by
  refine ⟨?_, ?_, ?_, ?_, ?_⟩
  · intro fields c h kv hkv
    cases hall : fields.all (fun kv => decide (kv.1 ∈ configKeys)) with
    | true => exact of_decide_eq_true (List.all_eq_true.mp hall kv hkv)
    | false => simp [Config.from_toml, hall] at h
  · intro fields n h kv hkv
    cases hall : fields.all (fun kv => decide (kv.1 ∈ nodeKeys)) with
    | true => exact of_decide_eq_true (List.all_eq_true.mp hall kv hkv)
    | false => simp [deNode, hall] at h
  · intro fields e h kv hkv
    cases hall : fields.all (fun kv => decide (kv.1 ∈ (["egress", "ingress"] : List String))) with
    | true => exact of_decide_eq_true (List.all_eq_true.mp hall kv hkv)
    | false => simp only [deEdges] at h; rw [hall] at h; simp at h
  · intro fields ctl h kv hkv
    cases hall : fields.all (fun kv => decide (kv.1 ∈ (["prefix", "path"] : List String))) with
    | true => exact of_decide_eq_true (List.all_eq_true.mp hall kv hkv)
    | false => simp only [deControl] at h; rw [hall] at h; simp at h
  · intro fields r h kv hkv
    cases hall : fields.all (fun kv => decide (kv.1 ∈ rdmaKeys)) with
    | true => exact of_decide_eq_true (List.all_eq_true.mp hall kv hkv)
    | false => simp [deRdma, hall] at h

/-- Witness for C7: the accepted sample document only carries declared
keys, e.g. its first key `log_env`. -/
theorem C7_witness : ("log_env", Toml.str "KOALA_LOG").1 ∈ configKeys :=
  C7_amended.1 cfgDupFields cfgDup rfl ("log_env", Toml.str "KOALA_LOG")
    (by simp [cfgDupFields])

end Phoenix
